import Mathlib

/-!
Shallow embedding of `proxy_checker.py` (class `ProxyChecker`) and proofs of
the specification's claims about it.

Network effects are modelled by explicit outcome parameters: a probe outcome
records whether the proxied GET returned status 200 (with the elapsed time)
or not, or raised; a source-list fetch outcome records whether the GET of the
list URL returned status 200 (with the body) or not, or raised.  Pure string
processing (strip, lower, split, prefix tests) is embedded directly from the
Python semantics.
-/

namespace ProxyCheck

/-- Characters removed by Python `str.strip()` with no argument (ASCII whitespace). -/
def pySpace (c : Char) : Bool :=
  c == ' ' || c == '\t' || c == '\n' || c == '\r' || c == Char.ofNat 11 || c == Char.ofNat 12

/-- Python `s.strip()` on the character list: drop leading and trailing whitespace. -/
def pyStripList (s : List Char) : List Char :=
  ((s.dropWhile pySpace).reverse.dropWhile pySpace).reverse

/-- Python `s.strip()`. -/
def pyStrip (s : String) : String :=
  String.mk (pyStripList s.data)

/-- Python `s.lower()` (ASCII case folding, as used on proxy strings). -/
def pyLower (s : String) : String :=
  String.mk (s.data.map Char.toLower)

/-- Does `s` start with `pat` (character-list version)? -/
def startsWithL : List Char → List Char → Bool
  | [], _ => true
  | _ :: _, [] => false
  | p :: ps, c :: cs => p == c && startsWithL ps cs

/-- Does `s` contain `pat` as a contiguous substring (character-list version)? -/
def containsSub (pat : List Char) : List Char → Bool
  | [] => startsWithL pat []
  | c :: cs => startsWithL pat (c :: cs) || containsSub pat cs

/-- Python `pat in s` on strings. -/
def strContains (s pat : String) : Bool :=
  containsSub pat.data s.data

/-- Python `s.startswith(pat)`. -/
def strStartsWith (s pat : String) : Bool :=
  startsWithL pat.data s.data

/-- Python `s.split(sep)` for a single-character separator `sep`. -/
def pySplitCh (sep : Char) : List Char → List (List Char)
  | [] => [[]]
  | c :: cs =>
    if c = sep then [] :: pySplitCh sep cs
    else
      match pySplitCh sep cs with
      | [] => [[c]]
      | l :: ls => (c :: l) :: ls

/-- Python `s.split('\n')`. -/
def pySplitNl (s : String) : List String :=
  (pySplitCh '\n' s.data).map String.mk

/-- Python `s.split('://')`: split on every occurrence of the three-character
separator, scanning left to right. -/
def splitSchemeSep : List Char → List (List Char)
  | ':' :: '/' :: '/' :: rest => [] :: splitSchemeSep rest
  | c :: cs =>
    match splitSchemeSep cs with
    | [] => [[c]]
    | l :: ls => (c :: l) :: ls
  | [] => [[]]

/-- Line 136-137 of the source: `if '://' in proxy: proxy = proxy.split('://')[-1]`. -/
def stripSchemeStep (p : String) : String :=
  if strContains p "://" then String.mk ((splitSchemeSep p.data).getLastD []) else p

/-- The protocol tags the checker can record. -/
inductive Protocol
  | http
  | socks4
  | socks5
deriving DecidableEq, Repr

/-- A probe latency: a finite elapsed time, or the `float('inf')` sentinel. -/
inductive Speed
  | fin (q : ℚ)
  | inf
deriving DecidableEq, Repr

/-- The `ProxyStats` dataclass of the source. -/
structure ProxyStats where
  url : String
  speed : Speed
  protocol : Protocol
  last_checked : ℚ
  is_working : Bool
deriving DecidableEq, Repr

/-- Outcome of one proxied GET of the test URL (lines 66-83 of the source):
status 200 with its elapsed latency and completion time, a non-200 status, or
an exception (connect error, timeout, handshake failure, ...). -/
inductive ProbeOutcome
  | ok (elapsed : ℚ) (finish : ℚ)
  | non200 (finish : ℚ)
  | exc (finish : ℚ)
deriving DecidableEq, Repr

/-- Lines 57-61 of the source: infer the protocol tag from the original
candidate string, by case-insensitive substring match, `socks4` checked first,
defaulting to `http`. -/
def inferProtocol (proxy : String) : Protocol :=
  if strContains (pyLower proxy) "socks4://" then Protocol.socks4
  else if strContains (pyLower proxy) "socks5://" then Protocol.socks5
  else Protocol.http

/-- Lines 63-64 of the source: prepend `http://` unless the string starts
(case-sensitively) with one of the three recognized scheme prefixes. -/
def normalizeAddress (proxy : String) : String :=
  if strStartsWith proxy "http://" || strStartsWith proxy "socks4://" ||
      strStartsWith proxy "socks5://" then proxy
  else "http://" ++ proxy

/-- The `ProxyStats` record returned by `check_proxy` for a given candidate and
probe outcome (lines 56-92): a status-200 response yields a working record with
the finite elapsed latency; any other outcome yields a non-working record with
the infinite sentinel. -/
def check_proxy_result (proxy : String) : ProbeOutcome → ProxyStats
  | ProbeOutcome.ok elapsed t =>
    { url := normalizeAddress proxy
      speed := Speed.fin elapsed
      protocol := inferProtocol proxy
      last_checked := t
      is_working := true }
  | ProbeOutcome.non200 t =>
    { url := normalizeAddress proxy
      speed := Speed.inf
      protocol := inferProtocol proxy
      last_checked := t
      is_working := false }
  | ProbeOutcome.exc t =>
    { url := normalizeAddress proxy
      speed := Speed.inf
      protocol := inferProtocol proxy
      last_checked := t
      is_working := false }

/-- The mutable counters and result list of a `ProxyChecker` instance. -/
structure CheckerState where
  checked_count : ℕ
  total_count : ℕ
  results : List ProxyStats
deriving DecidableEq, Repr

/-- Lines 51-54 of the source: `update_progress` increments `checked_count` by
one (the percentage print is console output only). -/
def update_progress (st : CheckerState) : CheckerState :=
  { st with checked_count := st.checked_count + 1 }

/-- Line 53 of the source: the printed progress percentage. -/
def progressPercent (st : CheckerState) : ℚ :=
  ((st.checked_count : ℚ) / (st.total_count : ℚ)) * 100

/-- `check_proxy` (lines 56-92): calls `update_progress` exactly once on every
path and returns the `ProxyStats` record for the outcome; every failure is
caught by the bare `except` and turned into data, never re-raised. -/
def check_proxy (st : CheckerState) (proxy : String) (o : ProbeOutcome) :
    CheckerState × ProxyStats :=
  (update_progress st, check_proxy_result proxy o)

/-- The candidates for which `check_proxies` creates a probe task: line 107 of
the source keeps exactly the candidates whose `strip()` is non-empty. -/
def launchedCandidates (proxies : List String) : List String :=
  proxies.filter fun p => !(pyStrip p).isEmpty

/-- The result of each launched probe task, in task-creation order (the order
`asyncio.gather` returns them); the outcome of the `i`-th launched task is
`outcomes i`. -/
def runProbes (outcomes : ℕ → ProbeOutcome) : ℕ → List String → List ProxyStats
  | _, [] => []
  | i, p :: ps => check_proxy_result p (outcomes i) :: runProbes outcomes (i + 1) ps

/-- `check_proxies` (lines 94-111): `total_count` is set to the length of the
whole candidate list, one task is created per candidate with non-empty strip,
all tasks are gathered, and since `check_proxy` is total every gathered value
is a `ProxyStats`, so the `isinstance` filter keeps them all; `checked_count`
ends at the number of launched tasks, one increment per probe. -/
def check_proxies (proxies : List String) (outcomes : ℕ → ProbeOutcome) :
    CheckerState :=
  { total_count := proxies.length
    checked_count := (launchedCandidates proxies).length
    results := runProbes outcomes 0 (launchedCandidates proxies) }

/-- Ordering on speeds as Python's `float` comparison orders them:
`inf` is above every finite value. -/
def speedLe (a b : Speed) : Bool :=
  match a, b with
  | Speed.fin x, Speed.fin y => decide (x ≤ y)
  | Speed.fin _, Speed.inf => true
  | Speed.inf, Speed.fin _ => false
  | Speed.inf, Speed.inf => true

/-- The sort key of line 115 of the source: compare records by `speed`. -/
def statLe (a b : ProxyStats) : Prop :=
  speedLe a.speed b.speed = true

instance : DecidableRel statLe :=
  fun a b => (inferInstance : Decidable (speedLe a.speed b.speed = true))

/-- Python slice `xs[:n]` for an integer bound `n` (negative bounds count from
the end). -/
def pySliceTo (xs : List ProxyStats) (n : ℤ) : List ProxyStats :=
  if 0 ≤ n then xs.take n.toNat else xs.take (xs.length - (-n).toNat)

/-- `get_best_proxies` (lines 113-116): filter to working records, sort
ascending by speed (`sorted` is stable; insertion sort is the same stable
sort), then `sorted_proxies[:limit] if limit else sorted_proxies` — the slice
is taken only when `limit` is truthy, i.e. present and non-zero. -/
def get_best_proxies (results : List ProxyStats) (limit : Option ℤ) :
    List ProxyStats :=
  let sorted_proxies :=
    (results.filter fun p => p.is_working).insertionSort statLe
  match limit with
  | some n => if n ≠ 0 then pySliceTo sorted_proxies n else sorted_proxies
  | none => sorted_proxies

/-- Outcome of fetching one source URL (lines 41-49): status 200 with the body
text, a non-200 status (the `if` falls through and the function returns
`None`), or an exception (caught, logged, `[]` returned). -/
inductive FetchOutcome
  | ok (content : String)
  | non200
  | exc
deriving DecidableEq, Repr

/-- `fetch_single_list` (lines 41-49) as a function of the fetch outcome:
`some lines` on status 200, `none` (Python `None`) on a non-200 status,
`some []` when an exception was caught. -/
def fetch_single_list : FetchOutcome → Option (List String)
  | FetchOutcome.ok content => some (pySplitNl (pyStrip content))
  | FetchOutcome.non200 => none
  | FetchOutcome.exc => some []

/-- `fetch_proxy_lists` (lines 28-39): gather the per-source results, extend a
list with every result that is a Python list (dropping the `None`s), and
deduplicate with `list(set(...))`; the set of candidates is modelled as a
`Finset` since Python's set iteration order is unspecified. -/
def fetch_proxy_lists (outcomes : List FetchOutcome) : Finset String :=
  ((outcomes.filterMap fetch_single_list).flatten).toFinset

/-- `save_all_unique_proxies` (lines 125-146): the lines written to the file —
strip each candidate, skip empties, drop everything up to the last `://`,
deduplicate, and write in sorted order. -/
def save_all_unique_proxies (proxies : List String) : List String :=
  let uniq :=
    (((proxies.map pyStrip).filter fun p => !p.isEmpty).map stripSchemeStep).dedup
  uniq.insertionSort (· ≤ ·)

/-- State of the probe scheduler of lines 100-108: tasks waiting to acquire the
semaphore, free semaphore permits, probes currently active (holding a permit,
hence possibly holding an open connection), and completed probes. -/
structure SchedState where
  waiting : ℕ
  permits : ℕ
  active : ℕ
  done : ℕ
deriving DecidableEq, Repr

/-- One scheduler transition: `acquire` admits a waiting task when a semaphore
permit is free (`async with semaphore` succeeds only then), `release` completes
an active probe and returns its permit. -/
inductive SchedStep : SchedState → SchedState → Prop
  | acquire (s : SchedState) (hw : 0 < s.waiting) (hp : 0 < s.permits) :
      SchedStep s ⟨s.waiting - 1, s.permits - 1, s.active + 1, s.done⟩
  | release (s : SchedState) (ha : 0 < s.active) :
      SchedStep s ⟨s.waiting, s.permits + 1, s.active - 1, s.done + 1⟩

/-- Initial scheduler state: `n` launched tasks all waiting, the semaphore
initialized with `cap` (= `max_concurrent`) permits, nothing active or done. -/
def schedInit (cap n : ℕ) : SchedState :=
  ⟨n, cap, 0, 0⟩

/-- States the scheduler can reach from the initial state. -/
inductive SchedReachable (cap n : ℕ) : SchedState → Prop
  | init : SchedReachable cap n (schedInit cap n)
  | step {s t : SchedState} : SchedReachable cap n s → SchedStep s t →
      SchedReachable cap n t

/-- `speedLe` is total. -/
lemma speedLe_total (a b : Speed) : speedLe a b = true ∨ speedLe b a = true := by
  cases a <;> cases b <;> simp [speedLe]
  exact le_total _ _

/-- `speedLe` is transitive. -/
lemma speedLe_trans {a b c : Speed} (h1 : speedLe a b = true)
    (h2 : speedLe b c = true) : speedLe a c = true := by
  cases a <;> cases b <;> cases c <;> simp_all [speedLe]
  exact h1.trans h2

instance : IsTotal ProxyStats statLe :=
  ⟨fun a b => speedLe_total a.speed b.speed⟩

instance : IsTrans ProxyStats statLe :=
  ⟨fun _ _ _ h1 h2 => speedLe_trans h1 h2⟩

/-- `runProbes` yields one record per candidate. -/
lemma runProbes_length (outcomes : ℕ → ProbeOutcome) (i : ℕ) (l : List String) :
    (runProbes outcomes i l).length = l.length := by
  induction l generalizing i with
  | nil => simp [runProbes]
  | cons p ps ih => simp [runProbes, ih]

/-- The `j`-th record of `runProbes` comes from the `j`-th candidate with the
`(i+j)`-th outcome. -/
lemma runProbes_getElem? (outcomes : ℕ → ProbeOutcome) (i j : ℕ) (l : List String) :
    (runProbes outcomes i l)[j]? =
      (l[j]?).map fun p => check_proxy_result p (outcomes (i + j)) := by
  induction l generalizing i j with
  | nil => simp [runProbes]
  | cons p ps ih =>
    cases j with
    | zero => simp [runProbes]
    | succ j =>
      have harith : i + 1 + j = i + (j + 1) := by omega
      simp [runProbes, ih (i + 1) j, harith]

/-- Membership in the fetched candidate set: exactly the lines of the sources
that returned status 200. -/
lemma mem_fetch_proxy_lists (outcomes : List FetchOutcome) (x : String) :
    x ∈ fetch_proxy_lists outcomes ↔
      ∃ c, FetchOutcome.ok c ∈ outcomes ∧ x ∈ pySplitNl (pyStrip c) := by
  simp only [fetch_proxy_lists, List.mem_toFinset, List.mem_flatten,
    List.mem_filterMap]
  constructor
  · rintro ⟨l, ⟨o, ho, hf⟩, hx⟩
    cases o with
    | ok c =>
      refine ⟨c, ho, ?_⟩
      simp only [fetch_single_list, Option.some.injEq] at hf
      exact hf ▸ hx
    | non200 => simp [fetch_single_list] at hf
    | exc =>
      simp only [fetch_single_list, Option.some.injEq] at hf
      subst hf
      simp at hx
  · rintro ⟨c, hc, hx⟩
    exact ⟨pySplitNl (pyStrip c), ⟨FetchOutcome.ok c, hc, rfl⟩, hx⟩

/-- C1: For every ProbeResult (ProxyStats) produced by check_proxy,
`working=true` holds if and only if the latency (speed) is finite: a success
yields a finite elapsed latency and `working=true`, and every failure (non-200
status or exception) yields the infinite sentinel latency and `working=false`. -/
theorem check_proxy_working_iff_finite (st : CheckerState) (proxy : String)
    (o : ProbeOutcome) :
    ((check_proxy st proxy o).2.is_working = true ↔
      ∃ q, (check_proxy st proxy o).2.speed = Speed.fin q) ∧
    (∀ e t, (check_proxy st proxy (ProbeOutcome.ok e t)).2.speed = Speed.fin e ∧
      (check_proxy st proxy (ProbeOutcome.ok e t)).2.is_working = true) ∧
    (∀ t, (check_proxy st proxy (ProbeOutcome.non200 t)).2.speed = Speed.inf ∧
      (check_proxy st proxy (ProbeOutcome.non200 t)).2.is_working = false) ∧
    (∀ t, (check_proxy st proxy (ProbeOutcome.exc t)).2.speed = Speed.inf ∧
      (check_proxy st proxy (ProbeOutcome.exc t)).2.is_working = false) := by
  refine ⟨?_, ?_, ?_, ?_⟩
  · cases o <;> simp [check_proxy, check_proxy_result]
  · intro e t; simp [check_proxy, check_proxy_result]
  · intro t; simp [check_proxy, check_proxy_result]
  · intro t; simp [check_proxy, check_proxy_result]

/-- C2: `check_proxy` infers the protocol tag from the original candidate
string by case-insensitive substring match, with `http` as default, before any
normalization, and prepends `http://` exactly when no recognized scheme prefix
is present; in particular `socks5://1.2.3.4:1080` gets protocol `socks5`,
`socks4://1.2.3.4:1080` gets `socks4`, and `1.2.3.4:8080` gets protocol `http`
with probing address `http://1.2.3.4:8080`. -/
theorem check_proxy_protocol_inference (st : CheckerState) (o : ProbeOutcome) :
    (∀ proxy : String,
      (check_proxy st proxy o).2.protocol =
        (if strContains (pyLower proxy) "socks4://" then Protocol.socks4
         else if strContains (pyLower proxy) "socks5://" then Protocol.socks5
         else Protocol.http) ∧
      (check_proxy st proxy o).2.url =
        (if strStartsWith proxy "http://" || strStartsWith proxy "socks4://" ||
            strStartsWith proxy "socks5://" then proxy
         else "http://" ++ proxy)) ∧
    (check_proxy st "socks5://1.2.3.4:1080" o).2.protocol = Protocol.socks5 ∧
    (check_proxy st "socks4://1.2.3.4:1080" o).2.protocol = Protocol.socks4 ∧
    (check_proxy st "1.2.3.4:8080" o).2.protocol = Protocol.http ∧
    (check_proxy st "1.2.3.4:8080" o).2.url = "http://1.2.3.4:8080" := by
  have hgen : ∀ proxy : String,
      (check_proxy st proxy o).2.protocol = inferProtocol proxy ∧
      (check_proxy st proxy o).2.url = normalizeAddress proxy := by
    intro proxy
    cases o <;> exact ⟨rfl, rfl⟩
  refine ⟨fun proxy => ⟨(hgen proxy).1, (hgen proxy).2⟩, ?_, ?_, ?_, ?_⟩
  · rw [(hgen _).1]; decide
  · rw [(hgen _).1]; decide
  · rw [(hgen _).1]; decide
  · rw [(hgen _).2]; decide

/-- C7: `check_proxy` never propagates an error to its caller — every probe
outcome, success, non-200 status or exception, is returned as a `ProxyStats`
record (failure is data, the bare `except` catches everything) — and it calls
`update_progress` (incrementing `checked_count`) exactly once per probe
regardless of outcome. -/
theorem check_proxy_progress_once (st : CheckerState) (proxy : String)
    (o : ProbeOutcome) :
    (check_proxy st proxy o).1.checked_count = st.checked_count + 1 ∧
    (check_proxy st proxy o).1 = update_progress st ∧
    (check_proxy st proxy o).2 = check_proxy_result proxy o ∧
    (∀ t, (check_proxy st proxy (ProbeOutcome.exc t)).2.is_working = false ∧
      (check_proxy st proxy (ProbeOutcome.exc t)).2.speed = Speed.inf) := by
  refine ⟨rfl, rfl, rfl, ?_⟩
  intro t
  simp [check_proxy, check_proxy_result]

/-- C4: `check_proxies` yields exactly one `ProxyStats` per non-blank candidate
submitted — no drops and no duplicates: the result list has one entry per
candidate with non-empty strip, and the `i`-th entry is precisely the record
`check_proxy` produces for the `i`-th non-blank candidate. -/
theorem check_proxies_one_per_nonblank (proxies : List String)
    (outcomes : ℕ → ProbeOutcome) :
    (check_proxies proxies outcomes).results.length =
      (proxies.filter fun p => !(pyStrip p).isEmpty).length ∧
    ∀ i : ℕ, ((check_proxies proxies outcomes).results)[i]? =
      ((proxies.filter fun p => !(pyStrip p).isEmpty)[i]?).map
        fun p => check_proxy_result p (outcomes i) := by
  constructor
  · exact runProbes_length outcomes 0 (launchedCandidates proxies)
  · intro i
    have h := runProbes_getElem? outcomes 0 i (launchedCandidates proxies)
    simpa [launchedCandidates] using h

/-- C5 counterexample: on the candidate list `["", "1.2.3.4:8080"]` the count
of non-blank candidates (and of launched tasks, one result each) is 1, but
`total_count` is set to the length of the whole list, 2 — so the count of
launched tasks is not the value stored in `total_count`. -/
theorem check_proxies_total_count_cex :
    (check_proxies ["", "1.2.3.4:8080"] (fun _ => ProbeOutcome.exc 0)).results.length = 1 ∧
    (check_proxies ["", "1.2.3.4:8080"] (fun _ => ProbeOutcome.exc 0)).total_count = 2 ∧
    (check_proxies ["", "1.2.3.4:8080"] (fun _ => ProbeOutcome.exc 0)).total_count ≠
      (check_proxies ["", "1.2.3.4:8080"] (fun _ => ProbeOutcome.exc 0)).results.length := by
  refine ⟨rfl, rfl, ?_⟩
  decide

/-- C5 amended: the number of probe tasks launched (and of results collected,
and the final `checked_count`) equals the count of non-blank candidate strings,
while `total_count` is set at batch start to the length of the full candidate
list, blank entries included, and is the denominator of the progress
percentage; the two counts coincide only when every candidate is non-blank. -/
theorem check_proxies_counts (proxies : List String)
    (outcomes : ℕ → ProbeOutcome) :
    (check_proxies proxies outcomes).results.length =
      (proxies.filter fun p => !(pyStrip p).isEmpty).length ∧
    (check_proxies proxies outcomes).checked_count =
      (proxies.filter fun p => !(pyStrip p).isEmpty).length ∧
    (check_proxies proxies outcomes).total_count = proxies.length ∧
    progressPercent (check_proxies proxies outcomes) =
      (((proxies.filter fun p => !(pyStrip p).isEmpty).length : ℚ) /
        (proxies.length : ℚ)) * 100 := by
  refine ⟨?_, rfl, rfl, rfl⟩
  exact runProbes_length outcomes 0 (launchedCandidates proxies)

/-- C6: a source whose fetch errors (exception or non-200 status) contributes
zero candidates to `fetch_proxy_lists` and never aborts the overall fetch: the
returned set is exactly the deduplicated union of the lines of all successful
(status-200) sources, and removing a failing source from the source list leaves
the result unchanged. -/
theorem fetch_proxy_lists_union_of_ok (outcomes : List FetchOutcome) :
    (∀ x, x ∈ fetch_proxy_lists outcomes ↔
      ∃ c, FetchOutcome.ok c ∈ outcomes ∧ x ∈ pySplitNl (pyStrip c)) ∧
    (∀ l1 l2 : List FetchOutcome,
      fetch_proxy_lists (l1 ++ FetchOutcome.non200 :: l2) =
        fetch_proxy_lists (l1 ++ l2) ∧
      fetch_proxy_lists (l1 ++ FetchOutcome.exc :: l2) =
        fetch_proxy_lists (l1 ++ l2)) := by
  refine ⟨mem_fetch_proxy_lists outcomes, ?_⟩
  intro l1 l2
  constructor <;>
    · apply Finset.ext
      intro x
      simp [mem_fetch_proxy_lists]

/-- The scheduler invariant: free permits plus active probes always equal the
semaphore's initial count `cap`. -/
lemma sched_permits_invariant {cap n : ℕ} {s : SchedState}
    (h : SchedReachable cap n s) : s.permits + s.active = cap := by
  induction h with
  | init => simp [schedInit]
  | step hr hs ih =>
    cases hs with
    | acquire hw hp => simp only at ih ⊢; omega
    | release ha => simp only at ih ⊢; omega

/-- C8: during any run of the semaphore-gated scheduler of `check_proxies`
with cap `max_concurrent`, at no reachable state are more than `max_concurrent`
probes simultaneously active (holding a permit, hence an open connection);
further tasks wait until a permit frees. -/
theorem sched_active_le_cap (cap n : ℕ) (s : SchedState)
    (h : SchedReachable cap n s) : s.active ≤ cap := by
  have hinv := sched_permits_invariant h
  omega

/-- Witness for C8: with 5000 candidates and a cap of 1000, the state after one
admission is reachable and has at most 1000 active probes. -/
theorem sched_active_le_cap_witness :
    SchedReachable 1000 5000 ⟨4999, 999, 1, 0⟩ ∧
    (⟨4999, 999, 1, 0⟩ : SchedState).active ≤ 1000 := by
  have hr : SchedReachable 1000 5000 ⟨4999, 999, 1, 0⟩ :=
    SchedReachable.step SchedReachable.init
      (SchedStep.acquire (schedInit 1000 5000) (by decide) (by decide))
  exact ⟨hr, sched_active_le_cap 1000 5000 _ hr⟩

/-- C10: for a candidate whose scheme prefix appears only in non-lowercase
form, the case-insensitive substring match still infers the socks protocol,
but the case-sensitive `startswith` normalization does not recognize the
prefix, so `http://` is prepended and the probing address carries a scheme that
disagrees with the recorded protocol tag. -/
theorem check_proxy_case_mismatch (st : CheckerState) (o : ProbeOutcome)
    (proxy : String)
    (h1 : strContains (pyLower proxy) "socks5://" = true)
    (h2 : strContains (pyLower proxy) "socks4://" = false)
    (h3 : strStartsWith proxy "http://" = false)
    (h4 : strStartsWith proxy "socks4://" = false)
    (h5 : strStartsWith proxy "socks5://" = false) :
    (check_proxy st proxy o).2.protocol = Protocol.socks5 ∧
    (check_proxy st proxy o).2.url = "http://" ++ proxy := by
  cases o <;>
    simp [check_proxy, check_proxy_result, inferProtocol, normalizeAddress,
      h1, h2, h3, h4, h5]

/-- Witness for C10: the candidate `SOCKS5://1.2.3.4:1080` gets protocol tag
`socks5` but probing address `http://SOCKS5://1.2.3.4:1080`. -/
theorem check_proxy_case_mismatch_witness :
    (check_proxy ⟨0, 0, []⟩ "SOCKS5://1.2.3.4:1080" (ProbeOutcome.exc 0)).2.protocol =
      Protocol.socks5 ∧
    (check_proxy ⟨0, 0, []⟩ "SOCKS5://1.2.3.4:1080" (ProbeOutcome.exc 0)).2.url =
      "http://SOCKS5://1.2.3.4:1080" :=
  check_proxy_case_mismatch ⟨0, 0, []⟩ (ProbeOutcome.exc 0) "SOCKS5://1.2.3.4:1080"
    (by decide) (by decide) (by decide) (by decide) (by decide)

/-- A sample record for the worked examples. -/
def sampleStat (u : String) (s : Speed) (b : Bool) : ProxyStats :=
  { url := u, speed := s, protocol := Protocol.http, last_checked := 0,
    is_working := b }

/-- The five-result example of the spec: latencies 0.1, 0.3, 0.2, inf (not
working), 0.05. -/
def sampleResults : List ProxyStats :=
  [sampleStat "p1" (Speed.fin (1 / 10)) true,
   sampleStat "p2" (Speed.fin (3 / 10)) true,
   sampleStat "p3" (Speed.fin (2 / 10)) true,
   sampleStat "p4" Speed.inf false,
   sampleStat "p5" (Speed.fin (1 / 20)) true]

/-- Every truncation `get_best_proxies` can return is a sublist of the full
sorted sequence. -/
lemma get_best_proxies_sublist (results : List ProxyStats) (lim : Option ℤ) :
    (get_best_proxies results lim).Sublist (get_best_proxies results none) := by
  cases lim with
  | none => exact List.Sublist.refl _
  | some n =>
    by_cases hn : n = 0
    · simp [get_best_proxies, hn]
    · by_cases h0 : 0 ≤ n
      · simp only [get_best_proxies, pySliceTo]
        rw [if_pos hn, if_pos h0]
        exact List.take_sublist _ _
      · simp only [get_best_proxies, pySliceTo]
        rw [if_pos hn, if_neg h0]
        exact List.take_sublist _ _

/-- C3 counterexample: with one working record and `limit = 0`, the Python
truthiness test `if limit` is false, so `get_best_proxies` returns the full
sorted sequence instead of the first 0 elements (the empty list) the claim
requires for a given limit. -/
theorem get_best_proxies_limit_zero_cex :
    get_best_proxies [sampleStat "p" (Speed.fin 1) true] (some 0) =
      [sampleStat "p" (Speed.fin 1) true] ∧
    [sampleStat "p" (Speed.fin 1) true] ≠ ([] : List ProxyStats) := by
  constructor
  · rfl
  · simp

/-- C3 amended: `get_best_proxies` filters the results to the `working=true`
entries, sorts them ascending by latency, does not mutate the result
collection (it is a pure function of it), and returns the full sorted sequence
when no limit is given or when the given limit is 0 (Python falsiness), and its
first `limit` elements when a positive limit is given; on the spec's
five-result example with limit 3 it returns the entries ordered by latency
0.05, 0.1, 0.2. -/
theorem get_best_proxies_spec (results : List ProxyStats) (n : ℤ)
    (hn : 0 < n) :
    (∀ lim p, p ∈ get_best_proxies results lim → p.is_working = true) ∧
    (∀ lim, (get_best_proxies results lim).Sorted statLe) ∧
    (get_best_proxies results none).Perm
      (results.filter fun p => p.is_working) ∧
    get_best_proxies results (some 0) = get_best_proxies results none ∧
    get_best_proxies results (some n) =
      (get_best_proxies results none).take n.toNat ∧
    get_best_proxies sampleResults (some 3) =
      [sampleStat "p5" (Speed.fin (1 / 20)) true,
       sampleStat "p1" (Speed.fin (1 / 10)) true,
       sampleStat "p3" (Speed.fin (2 / 10)) true] := by
  refine ⟨?_, ?_, ?_, ?_, ?_, ?_⟩
  · intro lim p hp
    have hmem : p ∈ get_best_proxies results none :=
      (get_best_proxies_sublist results lim).subset hp
    have hmem2 : p ∈ results.filter fun p => p.is_working :=
      (List.mem_insertionSort statLe).mp hmem
    exact (List.mem_filter.mp hmem2).2
  · intro lim
    exact List.Pairwise.sublist (get_best_proxies_sublist results lim)
      (List.sorted_insertionSort statLe _)
  · exact List.perm_insertionSort statLe _
  · rfl
  · have hne : n ≠ 0 := by omega
    have h0 : (0 : ℤ) ≤ n := by omega
    simp [get_best_proxies, pySliceTo, hne, h0]
  · norm_num [get_best_proxies, statLe, speedLe, pySliceTo, sampleStat,
      sampleResults, List.orderedInsert]
    rfl

/-- Witness for C3: on the five-result example, a positive limit of 3 returns
the first three elements of the full sorted sequence. -/
theorem get_best_proxies_spec_witness :
    get_best_proxies sampleResults (some 3) =
      (get_best_proxies sampleResults none).take (3 : ℤ).toNat :=
  (get_best_proxies_spec sampleResults 3 (by decide)).2.2.2.2.1

/-- C9: `save_all_unique_proxies` writes exactly the set of non-blank
candidates with everything up to the last `://` stripped, deduplicated after
stripping, sorted lexicographically, one per line; it takes no probe outcome as
input, so the written lines are independent of probe outcomes. -/
theorem save_all_unique_proxies_spec (proxies : List String) :
    (∀ s, s ∈ save_all_unique_proxies proxies ↔
      ∃ p, p ∈ proxies ∧ (pyStrip p).isEmpty = false ∧
        stripSchemeStep (pyStrip p) = s) ∧
    (save_all_unique_proxies proxies).Nodup ∧
    (save_all_unique_proxies proxies).Sorted (· ≤ ·) := by
  refine ⟨?_, ?_, ?_⟩
  · intro s
    simp only [save_all_unique_proxies, List.mem_insertionSort, List.mem_dedup,
      List.mem_map, List.mem_filter, Bool.not_eq_eq_eq_not, Bool.not_true]
    constructor
    · rintro ⟨a, ⟨⟨p, hp, rfl⟩, hne⟩, rfl⟩
      exact ⟨p, hp, hne, rfl⟩
    · rintro ⟨p, hp, hne, rfl⟩
      exact ⟨pyStrip p, ⟨⟨p, hp, rfl⟩, hne⟩, rfl⟩
  · exact ((List.perm_insertionSort _ _).nodup_iff).mpr (List.nodup_dedup _)
  · exact List.sorted_insertionSort _ _

end ProxyCheck
